import Mathlib

/-!
Shallow embedding of the invoice document drop-zone pipeline from
`src/frontend/components/InvoiceDocumentDropZone.tsx` (two variants appear in
the source: a multi-line-item variant and a simplified single-item variant)
together with the client environment validation module (`src/unnamed/part_000`).

The embedding models JavaScript values explicitly (objects, arrays, strings,
numbers with NaN, null, undefined) so that the duck-typed response
normalization and validation code can be translated faithfully, including
truthiness, `typeof`, the `in` operator, `ToString`/`ToNumber` coercions and
`parseFloat`.
-/

/-- JavaScript numbers: either a rational value or NaN.  (The source never
produces infinities in the modelled paths; IEEE rounding is abstracted by
using exact rationals.) -/
inductive JSNum where
  | num (q : Rat)
  | nan
deriving DecidableEq

/-- JavaScript values, as far as the modelled code can observe them. -/
inductive JSVal where
  | undefined
  | null
  | bool (b : Bool)
  | jnum (n : JSNum)
  | str (s : String)
  | arr (elems : List JSVal)
  | obj (fields : List (String × JSVal))

/-- JS truthiness: `false`, `0`, `NaN`, `""`, `null`, `undefined` are falsy,
every other value (including every object and array) is truthy. -/
def truthy : JSVal → Bool
  | .undefined => false
  | .null => false
  | .bool b => b
  | .jnum .nan => false
  | .jnum (.num q) => q != 0
  | .str s => s != ""
  | .arr _ => true
  | .obj _ => true

/-- `typeof v === "object"`: true for objects, arrays and `null`. -/
def typeofObject : JSVal → Bool
  | .null => true
  | .arr _ => true
  | .obj _ => true
  | _ => false

/-- `typeof v === "string"`. -/
def isString : JSVal → Bool
  | .str _ => true
  | _ => false

/-- `Array.isArray(v)`. -/
def isArray : JSVal → Bool
  | .arr _ => true
  | _ => false

/-- The elements of an array value (empty for non-arrays; only used after an
`Array.isArray` check in the source). -/
def arrElems : JSVal → List JSVal
  | .arr xs => xs
  | _ => []

/-- The JS `in` operator restricted to the modelled code paths: key presence
on an object.  (The source only applies `in` after a `typeof === "object"`
truthiness guard.) -/
def hasKey (v : JSVal) (k : String) : Bool :=
  match v with
  | .obj fs => fs.any (fun p => p.1 == k)
  | _ => false

/-- JS property access `v[k]`: the field's value on objects, `undefined`
otherwise (and `undefined` for a missing key). -/
def getField (v : JSVal) (k : String) : JSVal :=
  match v with
  | .obj fs =>
    match fs.find? (fun p => p.1 == k) with
    | some p => p.2
    | none => .undefined
  | _ => .undefined

/-- Object rest-destructuring `const { k, ...rest } = v`: drop the key `k`
from an object's fields (used to strip `isInvoice` before the callback). -/
def removeKey (v : JSVal) (k : String) : JSVal :=
  match v with
  | .obj fs => .obj (fs.filter (fun p => p.1 != k))
  | _ => v

/-- Decimal digit string to a natural number. -/
def digitsToNat (ds : List Char) : Nat :=
  ds.foldl (fun acc c => acc * 10 + (c.toNat - 48)) 0

/-- Core decimal-literal scanner shared by the `parseFloat` and `ToNumber`
models: optional sign, integer digits, optional fractional digits.  Returns
the parsed value and the unconsumed characters, or `none` when no digit is
found.  (Exponent suffixes and `Infinity` literals are not modelled; no value
in the source or the claims uses them.) -/
def parseDecCore (cs : List Char) : Option (Rat × List Char) :=
  let signed := match cs with
    | '-' :: r => (true, r)
    | '+' :: r => (false, r)
    | _ => (false, cs)
  let neg := signed.1
  let cs1 := signed.2
  let ip := cs1.takeWhile Char.isDigit
  let cs2 := cs1.dropWhile Char.isDigit
  let fracRest := match cs2 with
    | '.' :: r => (r.takeWhile Char.isDigit, r.dropWhile Char.isDigit)
    | _ => ([], cs2)
  let fp := fracRest.1
  let cs3 := fracRest.2
  if ip.isEmpty && fp.isEmpty then none
  else
    let mag : Rat := (digitsToNat ip : Rat) + (digitsToNat fp : Rat) / ((10 : Rat) ^ fp.length)
    some ((if neg then -mag else mag), cs3)

/-- JS `parseFloat` on a string: skip leading whitespace, parse the longest
decimal-literal choosing NaN when none is found; trailing garbage is
ignored. -/
def jsParseFloatStr (s : String) : JSNum :=
  match parseDecCore (s.data.dropWhile Char.isWhitespace) with
  | some p => .num p.1
  | none => .nan

/-- JS `ToNumber` on a string: trim whitespace on both ends, the empty string
converts to `0`, otherwise the whole remaining string must be a decimal
literal, else NaN. -/
def strToNumber (s : String) : JSNum :=
  let cs := ((s.data.dropWhile Char.isWhitespace).reverse.dropWhile Char.isWhitespace).reverse
  if cs.isEmpty then .num 0
  else
    match parseDecCore cs with
    | some (q, []) => .num q
    | _ => .nan

/-- JS number to string.  Exact for integral values; the decimal rendering of
non-integral rationals is abstracted (no modelled path stringifies one). -/
def jsNumToString : JSNum → String
  | .nan => "NaN"
  | .num q =>
    if q.den = 1 then
      (if q.num < 0 then "-" ++ toString q.num.natAbs else toString q.num.natAbs)
    else toString q

/-- JS `ToString` of an array element as used by `Array.prototype.join`:
`null` and `undefined` render as the empty string.  Nested arrays and objects
inside an array are abstracted (no modelled path stringifies them). -/
def jsElemString : JSVal → String
  | .undefined => ""
  | .null => ""
  | .bool true => "true"
  | .bool false => "false"
  | .jnum n => jsNumToString n
  | .str s => s
  | .arr _ => ""
  | .obj _ => "[object Object]"

/-- JS `String(v)` / `ToString(v)`. -/
def jsToString : JSVal → String
  | .undefined => "undefined"
  | .null => "null"
  | .bool true => "true"
  | .bool false => "false"
  | .jnum n => jsNumToString n
  | .str s => s
  | .arr xs => String.intercalate "," (xs.map jsElemString)
  | .obj _ => "[object Object]"

/-- JS `Number(v)` / `ToNumber(v)`.  Arrays convert through their string
rendering; plain objects convert to NaN (their `ToPrimitive` is
`"[object Object]"`). -/
def toNumber : JSVal → JSNum
  | .undefined => .nan
  | .null => .num 0
  | .bool b => .num (if b then 1 else 0)
  | .jnum n => n
  | .str s => strToNumber s
  | .arr xs => strToNumber (jsToString (.arr xs))
  | .obj _ => .nan

/-- JS `parseFloat(v)`: coerce the argument to a string first. -/
def jsParseFloat (v : JSVal) : JSNum :=
  jsParseFloatStr (jsToString v)

/-- `n < q` with JS semantics: false when the left operand is NaN. -/
def JSNum.ltB : JSNum → Rat → Bool
  | .nan, _ => false
  | .num x, q => decide (x < q)

/-- `n > q` with JS semantics: false when the left operand is NaN. -/
def JSNum.gtB : JSNum → Rat → Bool
  | .nan, _ => false
  | .num x, q => decide (q < x)

/-- `n <= q` with JS semantics: false when the left operand is NaN. -/
def JSNum.leB : JSNum → Rat → Bool
  | .nan, _ => false
  | .num x, q => decide (x ≤ q)

/-- JS relational `v < q` against a numeric literal: both operands go through
`ToNumber`, and any NaN makes the comparison false. -/
def jsLtV (v : JSVal) (q : Rat) : Bool :=
  (toNumber v).ltB q

/-- JS relational `v > q` against a numeric literal. -/
def jsGtV (v : JSVal) (q : Rat) : Bool :=
  (toNumber v).gtB q

/-- The regular expression test `/^\d{4}-\d{2}-\d{2}$/u.test s`. -/
def isDateFormat (s : String) : Bool :=
  match s.data with
  | [a, b, c, d, e, f, g, h, i, j] =>
    a.isDigit && b.isDigit && c.isDigit && d.isDigit && e == '-' &&
    f.isDigit && g.isDigit && h == '-' && i.isDigit && j.isDigit
  | _ => false

/-- The base64 alphabet character for a 6-bit value (values ≥ 64 never arise
for well-formed bytes). -/
def base64Char (n : Nat) : Char :=
  if n < 26 then Char.ofNat (65 + n)
  else if n < 52 then Char.ofNat (97 + (n - 26))
  else if n < 62 then Char.ofNat (48 + (n - 52))
  else if n = 62 then '+' else '/'

/-- Standard base64 encoding of a byte sequence, with `=` padding — the model
of both `btoa` on a binary string and the base64 section of a
`FileReader.readAsDataURL` result. -/
def base64Encode : List Nat → String
  | [] => ""
  | [a] =>
    String.mk [base64Char (a / 4 % 64), base64Char (a % 4 * 16), '=', '=']
  | [a, b] =>
    String.mk [base64Char (a / 4 % 64), base64Char (a % 4 * 16 + b / 16 % 16),
      base64Char (b % 16 * 4), '=']
  | a :: b :: c :: rest =>
    String.mk [base64Char (a / 4 % 64), base64Char (a % 4 * 16 + b / 16 % 16),
      base64Char (b % 16 * 4 + c / 64 % 4), base64Char (c % 64)] ++ base64Encode rest

/-- The user-supplied browser `File`.  `size` is the declared byte size
checked by the gate; `bytes` the byte content read by
`readAsArrayBuffer`/`readAsDataURL`; `text` the decoded text content produced
by `readAsText` (the UTF-8 decoding is kept as a separate attribute rather
than recomputed from the bytes). -/
structure SourceFile where
  name : String
  type : String
  size : Nat
  bytes : List Nat
  text : String

/-- `FileReader.readAsDataURL` on a file: a data URL carrying the declared
media type and the base64-encoded content. -/
def dataUrl (f : SourceFile) : String :=
  "data:" ++ f.type ++ ";base64," ++ base64Encode f.bytes

/-- The accepted media types (`validTypes` in both variants of
`handleFiles`). -/
def validTypes : List String :=
  ["image/jpeg", "image/jpg", "image/png", "image/webp", "application/pdf", "text/plain"]

/-- The two payload tags of an encoded file. -/
inductive ContentTag where
  | image
  | file
deriving DecidableEq

/-- The non-text content block of the single outbound extraction request (the
fixed instructional prompt accompanying it is elided: no claim concerns its
text). -/
inductive ContentBlock where
  | image (data : String)
  | file (data : String) (mediaType : String) (filename : String)
deriving DecidableEq

/-- The presentation states of the drop zone. -/
inductive DropZoneState where
  | idle
  | processing
  | success
  | error
  | notInvoice
deriving DecidableEq

/-!
The multi-line-item variant of the component (first file section of
`InvoiceDocumentDropZone.tsx`).
-/

namespace Multi

/-- Message thrown when the API key is missing. -/
def keyMissingMsg : String :=
  "OpenAI API key is not configured. Please add NEXT_PUBLIC_OPENAI_API_KEY to your environment variables."

/-- Message produced by the catch wrapping the file-reading stage. -/
def readFailMsg : String := "Failed to read the file. Please try a different file."

/-- Shape-failure message of the validation stage. -/
def analyzeMsg : String := "Unable to analyze the document. Please try a clearer image or different file."

/-- Sentinel message distinguishing the not-an-invoice classification. -/
def notInvoiceSentinel : String := "NOT_INVOICE"

/-- Failure message for an empty or non-array `lineItems`. -/
def noLineItemsMsg : String := "No line items found in the invoice."

/-- Failure message for an invalid line-item description. -/
def descMsg : String := "Invalid service description detected in the document."

/-- Failure message for an out-of-range pay rate. -/
def rateMsg : String := "Invalid payment amount detected in the document."

/-- Failure message for an invalid quantity. -/
def qtyMsg : String := "Invalid quantity/hours detected in the document."

/-- Failure message for a malformed invoice date. -/
def dateMsg : String := "Invalid or missing date in the document."

/-- Gate message for an unsupported media type. -/
def invalidFormatMsg : String :=
  "Invalid file format. Please upload an image (JPG, PNG, WebP), PDF, or text file."

/-- Gate message for an oversized file. -/
def oversizedMsg : String := "File too large. Please upload a file smaller than 10MB."

/-- User-facing message of the not-invoice terminal state. -/
def notInvoiceUserMsg : String :=
  "This doesn't appear to be an invoice or receipt. Please upload a billing document with payment information."

/-- The file-reading/encoding stage of `processDocument` (multi variant,
lines 70–125): images become a data URL tagged `image`, PDFs a base64 string
tagged `file`, plain text the decoded text tagged `file`.  The source throws
"Unsupported file type…" for anything else inside a `try` whose `catch`
rewrites every error to `readFailMsg`, so an unsupported type surfaces as
`readFailMsg`; actual I/O read failures (also `readFailMsg`) are not modelled
— files are always readable. -/
def encode (f : SourceFile) : Except String (String × ContentTag) :=
  if f.type.startsWith "image/" then .ok (dataUrl f, .image)
  else if f.type = "application/pdf" then .ok (base64Encode f.bytes, .file)
  else if f.type = "text/plain" then .ok (f.text, .file)
  else .error readFailMsg

/-- The scheme-prefix strip applied to image payloads (line 173):
`fileData.includes(",") ? (fileData.split(",")[1] ?? "") : fileData`. -/
def stripImage (s : String) : String :=
  if s.contains ',' then ((s.splitOn ",")[1]?).getD "" else s

/-- The content block placed after the instructional text in the request
(lines 169–183). -/
def mkContent : ContentTag → String → SourceFile → ContentBlock
  | .image, data, _ => .image (stripImage data)
  | .file, data, f => .file data f.type f.name

/-- Response normalization (lines 191–211): when the result carries a truthy
`properties` sub-object holding the three schema keys, rebuild a flat object
coercing `isInvoice` by truthiness, `lineItems` by `Array.isArray` (else an
empty array) and `invoiceDate` by string conversion; otherwise the result is
used unchanged. -/
def normalize (v : JSVal) : JSVal :=
  if truthy v && typeofObject v && hasKey v "properties" && truthy (getField v "properties") then
    let p := getField v "properties"
    if truthy p && typeofObject p && hasKey p "isInvoice" && hasKey p "lineItems" &&
        hasKey p "invoiceDate" then
      .obj [("isInvoice", .bool (truthy (getField p "isInvoice"))),
        ("lineItems", if isArray (getField p "lineItems") then getField p "lineItems" else .arr []),
        ("invoiceDate", .str (jsToString (getField p "invoiceDate")))]
    else v
  else v

/-- The per-item description check (line 227):
`!item.description || typeof item.description !== "string"`. -/
def descInvalid (i : JSVal) : Bool :=
  !truthy (getField i "description") || !isString (getField i "description")

/-- The per-item rate check (line 231):
`item.payRateInSubunits < 0 || item.payRateInSubunits > 100000000`. -/
def rateInvalid (p : JSVal) : Bool :=
  jsLtV p 0 || jsGtV p 100000000

/-- The per-item quantity check (lines 235–236):
`isNaN(parseFloat(q)) || parseFloat(q) <= 0 || parseFloat(q) > 10000`. -/
def qtyInvalid (q : JSVal) : Bool :=
  match jsParseFloat q with
  | .nan => true
  | .num x => decide (x ≤ 0) || decide (10000 < x)

/-- One iteration of the line-item loop (lines 226–239): the three checks in
source order, first failure reported. -/
def checkItem (i : JSVal) : Option String :=
  if descInvalid i then some descMsg
  else if rateInvalid (getField i "payRateInSubunits") then some rateMsg
  else if qtyInvalid (getField i "quantity") then some qtyMsg
  else none

/-- The `for … of` loop over line items: first failing item's message. -/
def checkItems : List JSVal → Option String
  | [] => none
  | i :: rest =>
    match checkItem i with
    | some m => some m
    | none => checkItems rest

/-- The validation stage of `processDocument` (lines 214–246), applied to the
normalized response: shape, `isInvoice` sentinel, non-empty `lineItems`, the
per-item loop, then the date format; on success the (normalized) response
object itself is returned. -/
def validate (v : JSVal) : Except String JSVal :=
  if !(truthy v && typeofObject v) then .error analyzeMsg
  else if !truthy (getField v "isInvoice") then .error notInvoiceSentinel
  else if !isArray (getField v "lineItems") || (arrElems (getField v "lineItems")).length == 0 then
    .error noLineItemsMsg
  else
    match checkItems (arrElems (getField v "lineItems")) with
    | some m => .error m
    | none =>
      if !isDateFormat (jsToString (getField v "invoiceDate")) then .error dateMsg
      else .ok v

/-- `processDocument` (multi variant): key precondition, encoding, the single
outbound request (whose model response is the `resp` parameter — the network
is external), normalization and validation.  The first component is the
content block of the issued request, `none` when no request was sent.
Validation errors other than the sentinel are re-thrown with the
"processing failed: " … wrapper of the catch at lines 247–255. -/
def processDocument (key : String) (f : SourceFile) (resp : JSVal) :
    Option ContentBlock × Except String JSVal :=
  if key = "" then (none, .error keyMissingMsg)
  else
    match encode f with
    | .error m => (none, .error m)
    | .ok (data, tag) =>
      (some (mkContent tag data f),
        match validate (normalize resp) with
        | .ok v => .ok v
        | .error m =>
          if m = notInvoiceSentinel then .error m
          else .error ("processing failed: " ++ m))

/-- The component state touched by `handleFiles` (multi variant). -/
structure State where
  state : DropZoneState
  errorMessage : String
  fileName : String
  isDragActive : Bool
  dragCounter : Nat

/-- `handleFiles` (multi variant, lines 258–305) for a non-empty file list
with `disabled = false`: set the file name, run the acquisition gate, then
process the document, mapping the sentinel to the `notInvoice` state and any
other error to the `error` state.  Returns the updated state, the value
passed to `onDataExtracted` (with `isInvoice` stripped; `none` when the
callback is not invoked) and the content block of the issued request (`none`
when no request was sent).  On success the source schedules a delayed reset
to `idle`; the returned state is the one in effect when the callback fires. -/
def handleFiles (st : State) (key : String) (f : SourceFile) (resp : JSVal) :
    State × Option JSVal × Option ContentBlock :=
  let st1 := { st with fileName := f.name }
  if !validTypes.contains f.type then
    ({ st1 with errorMessage := invalidFormatMsg, state := .error }, none, none)
  else if 10 * 1024 * 1024 < f.size then
    ({ st1 with errorMessage := oversizedMsg, state := .error }, none, none)
  else
    let st2 := { st1 with state := .processing, errorMessage := "" }
    match processDocument key f resp with
    | (req, .ok v) => (st2, some (removeKey v "isInvoice"), req)
    | (req, .error m) =>
      if m = notInvoiceSentinel then
        ({ st2 with state := .notInvoice, errorMessage := notInvoiceUserMsg }, none, req)
      else
        ({ st2 with state := .error, errorMessage := m }, none, req)

end Multi

/-!
The simplified single-item variant of the component (second file section of
`InvoiceDocumentDropZone.tsx`): five flat schema fields, no `isInvoice`
classification, no text/plain branch in its encoder and no catch wrapper
inside `processDocument`.
-/

namespace Single

/-- Message thrown when the API key is missing (identical in both variants). -/
def keyMissingMsg : String :=
  "OpenAI API key is not configured. Please add NEXT_PUBLIC_OPENAI_API_KEY to your environment variables."

/-- Message thrown by the encoder for any non-image, non-PDF file. -/
def unsupportedMsg : String := "Unsupported file type"

/-- Shape-failure message of the validation stage. -/
def shapeMsg : String := "Invalid response format from AI"

/-- Failure message for an out-of-range pay rate. -/
def rateMsg : String := "Invalid rate detected"

/-- Failure message for an invalid quantity. -/
def qtyMsg : String := "Invalid quantity detected"

/-- Failure message for a malformed invoice date. -/
def dateMsg : String := "Invalid date format"

/-- Gate message for an unsupported media type. -/
def invalidFormatMsg : String := "Please upload an image (JPG, PNG, WebP), PDF, or text file."

/-- Gate message for an oversized file. -/
def oversizedMsg : String := "File size must be less than 10MB."

/-- The file-reading/encoding stage of `processDocument` (single variant,
lines 519–556 of the concatenated source): images become a data URL tagged
`image`, PDFs a base64 string tagged `file`, and everything else — including
`text/plain`, which the variant's own gate accepts — throws
"Unsupported file type".  There is no catch wrapper in this variant. -/
def encode (f : SourceFile) : Except String (String × ContentTag) :=
  if f.type.startsWith "image/" then .ok (dataUrl f, .image)
  else if f.type = "application/pdf" then .ok (base64Encode f.bytes, .file)
  else .error unsupportedMsg

/-- The scheme-prefix strip applied to image payloads (line 588):
`fileData.split(",")[1] || fileData` — note that an *empty* portion after the
first separator is falsy, so the whole string is forwarded in that case. -/
def stripImage (s : String) : String :=
  match (s.splitOn ",")[1]? with
  | some t => if t = "" then s else t
  | none => s

/-- The content block placed after the instructional text in the request
(lines 584–598). -/
def mkContent : ContentTag → String → SourceFile → ContentBlock
  | .image, data, _ => .image (stripImage data)
  | .file, data, f => .file data f.type f.name

/-- Response normalization (lines 604–630): when the result carries a truthy
`properties` sub-object holding the five schema keys, rebuild a flat object
coercing `description`, `quantity`, `invoiceDate` by string conversion,
`hourly` by truthiness and `payRateInSubunits` by numeric conversion;
otherwise the result is used unchanged. -/
def normalize (v : JSVal) : JSVal :=
  if truthy v && typeofObject v && hasKey v "properties" && truthy (getField v "properties") then
    let p := getField v "properties"
    if truthy p && typeofObject p && hasKey p "description" && hasKey p "quantity" &&
        hasKey p "hourly" && hasKey p "payRateInSubunits" && hasKey p "invoiceDate" then
      .obj [("description", .str (jsToString (getField p "description"))),
        ("quantity", .str (jsToString (getField p "quantity"))),
        ("hourly", .bool (truthy (getField p "hourly"))),
        ("payRateInSubunits", .jnum (toNumber (getField p "payRateInSubunits"))),
        ("invoiceDate", .str (jsToString (getField p "invoiceDate")))]
    else v
  else v

/-- The rate check (line 637):
`extractedData.payRateInSubunits < 0 || extractedData.payRateInSubunits > 100000000`. -/
def rateInvalid (p : JSVal) : Bool :=
  jsLtV p 0 || jsGtV p 100000000

/-- The quantity check (line 641):
`parseFloat(q) <= 0 || parseFloat(q) > 10000` — unlike the multi variant
there is no NaN test, and both comparisons are false on NaN. -/
def qtyInvalid (q : JSVal) : Bool :=
  (jsParseFloat q).leB 0 || (jsParseFloat q).gtB 10000

/-- The validation stage of `processDocument` (lines 633–650), applied to
the normalized response: shape, rate, quantity, then the date format; on
success the (normalized) response object itself is returned. -/
def validate (v : JSVal) : Except String JSVal :=
  if !(truthy v && typeofObject v) then .error shapeMsg
  else if rateInvalid (getField v "payRateInSubunits") then .error rateMsg
  else if qtyInvalid (getField v "quantity") then .error qtyMsg
  else if !isDateFormat (jsToString (getField v "invoiceDate")) then .error dateMsg
  else .ok v

/-- `processDocument` (single variant): key precondition, encoding, the
single outbound request (whose model response is the `resp` parameter),
normalization and validation.  Errors propagate with their own messages —
this variant has no catch wrapper and no sentinel. -/
def processDocument (key : String) (f : SourceFile) (resp : JSVal) :
    Option ContentBlock × Except String JSVal :=
  if key = "" then (none, .error keyMissingMsg)
  else
    match encode f with
    | .error m => (none, .error m)
    | .ok (data, tag) =>
      (some (mkContent tag data f), validate (normalize resp))

/-- The component state touched by `handleFiles` (single variant; this
variant keeps the extracted data in state and has no file-name state). -/
structure State where
  state : DropZoneState
  errorMessage : String
  extractedData : Option JSVal
  isDragActive : Bool

/-- `handleFiles` (single variant, lines 653–688) for a non-empty file list
with `disabled = false`: acquisition gate, then document processing; on
success the data is stored in state, the state becomes `success` and the
full data object is passed to `onDataExtracted`; on failure the error
message is shown.  Returns the updated state, the callback argument and the
content block of the issued request. -/
def handleFiles (st : State) (key : String) (f : SourceFile) (resp : JSVal) :
    State × Option JSVal × Option ContentBlock :=
  if !validTypes.contains f.type then
    ({ st with errorMessage := invalidFormatMsg, state := .error }, none, none)
  else if 10 * 1024 * 1024 < f.size then
    ({ st with errorMessage := oversizedMsg, state := .error }, none, none)
  else
    let st2 := { st with state := .processing, errorMessage := "" }
    match processDocument key f resp with
    | (req, .ok v) =>
      ({ st2 with extractedData := some v, state := .success }, some v, req)
    | (req, .error m) =>
      ({ st2 with errorMessage := m, state := .error }, none, req)

end Single

/-!
The client environment module (`src/unnamed/part_000`): a zod object with
`z.string()` for the two keys, applied to `process.env` values at module
load.  A `process.env` entry is a string or `undefined`; `z.string()`
accepts every string — including the empty string — and rejects
`undefined`.
-/

/-- The two environment-sourced values as read from `process.env`
(`none` models an absent variable). -/
structure ProcessEnv where
  stripeKey : Option String
  openaiKey : Option String

/-- `z.object({ NEXT_PUBLIC_STRIPE_PUBLISHABLE_KEY: z.string(),
NEXT_PUBLIC_OPENAI_API_KEY: z.string() }).parse(env)`: succeeds exactly when
both entries are present strings (of any length), failing the module load
otherwise. -/
def clientEnvParse (e : ProcessEnv) : Except String (String × String) :=
  match e.stripeKey, e.openaiKey with
  | some s, some k => .ok (s, k)
  | none, _ => .error "ZodError: expected string, received undefined"
  | _, none => .error "ZodError: expected string, received undefined"

/-!
Concrete builders and fixtures used by the claim theorems.
-/

/-- A line-item object with the four schema keys (multi variant). -/
def mkItem (d q p : JSVal) : JSVal :=
  .obj [("description", d), ("quantity", q), ("hourly", .bool true), ("payRateInSubunits", p)]

/-- A flat multi-variant response object with the three schema keys, in the
order produced by normalization. -/
def mkMultiObj (b : Bool) (items : List JSVal) (date : String) : JSVal :=
  .obj [("isInvoice", .bool b), ("lineItems", .arr items), ("invoiceDate", .str date)]

/-- A flat single-variant response object with the five schema keys, in the
order produced by normalization. -/
def mkSingleObj (d q : String) (h : Bool) (n : JSNum) (date : String) : JSVal :=
  .obj [("description", .str d), ("quantity", .str q), ("hourly", .bool h),
    ("payRateInSubunits", .jnum n), ("invoiceDate", .str date)]

/-- A single-variant response whose fields may be arbitrary values. -/
def mkSingleWith (d q p : JSVal) : JSVal :=
  .obj [("description", d), ("quantity", q), ("hourly", .bool true),
    ("payRateInSubunits", p), ("invoiceDate", .str "2024-03-01")]

/-- A line item that passes every per-item check. -/
def goodItem : JSVal := mkItem (.str "Consulting") (.str "10") (.jnum (.num 5000))

/-- A valid multi-variant response except possibly for its quantity string. -/
def mkMultiGood (q : String) : JSVal :=
  mkMultiObj true [mkItem (.str "Consulting") (.str q) (.jnum (.num 5000))] "2024-03-01"

/-- A valid single-variant response except possibly for its quantity string. -/
def mkSingleGood (q : String) : JSVal :=
  mkSingleObj "Consulting" q true (.num 5000) "2024-03-01"

/-- An idle multi-variant component state. -/
def st0 : Multi.State := ⟨.idle, "", "", false, 0⟩

/-- An idle single-variant component state. -/
def sst0 : Single.State := ⟨.idle, "", none, false⟩

/-- A small accepted PNG file. -/
def pngFile : SourceFile := ⟨"invoice.png", "image/png", 4, [137, 80, 78, 71], ""⟩

/-- An accepted PNG file with empty byte content: its data URL has nothing
after the scheme-prefix separator. -/
def emptyPngFile : SourceFile := ⟨"empty.png", "image/png", 0, [], ""⟩

/-- An accepted plain-text file. -/
def txtFile : SourceFile := ⟨"notes.txt", "text/plain", 11, [104, 101], "hello world"⟩

/-- A file with an unsupported declared media type. -/
def zipFile : SourceFile := ⟨"archive.zip", "application/zip", 100, [], ""⟩

/-- An accepted-type PDF file one byte over the size limit. -/
def bigPdfFile : SourceFile := ⟨"big.pdf", "application/pdf", 10 * 1024 * 1024 + 1, [], ""⟩

/-- A multi-variant state carrying a previously displayed file name. -/
def stOld : Multi.State := ⟨.idle, "", "old.pdf", false, 0⟩

/-- A response whose raw `isInvoice` is false but which carries a
`properties` envelope (with the three schema keys) whose own `isInvoice` is
true — normalization rewrites the flat `isInvoice` before validation runs. -/
def envelopeFalseResp : JSVal :=
  .obj [("isInvoice", .bool false),
    ("properties", .obj [("isInvoice", .bool true), ("lineItems", .arr [goodItem]),
      ("invoiceDate", .str "2024-03-01")])]

/-- A line item violating the description, rate and quantity checks at
once. -/
def allBadItem : JSVal := mkItem (.str "") (.str "0") (.jnum (.num (-1)))

example : Multi.validate (mkMultiGood "10") = .ok (mkMultiGood "10") := by
  with_unfolding_all rfl
example : Multi.validate (mkMultiGood "0") = .error Multi.qtyMsg := by
  with_unfolding_all rfl
example : Multi.validate (mkMultiGood "10001") = .error Multi.qtyMsg := by
  with_unfolding_all rfl
example : Multi.validate (mkMultiGood "abc") = .error Multi.qtyMsg := by
  with_unfolding_all rfl
example : Multi.validate (mkMultiGood "10000") = .ok (mkMultiGood "10000") := by
  with_unfolding_all rfl
example : Single.validate (mkSingleGood "abc") = .ok (mkSingleGood "abc") := by
  with_unfolding_all rfl
example : Single.validate (mkSingleGood "0") = .error Single.qtyMsg := by
  with_unfolding_all rfl
example : dataUrl emptyPngFile = "data:image/png;base64," := rfl
example : dataUrl pngFile = "data:image/png;base64,iVBORw==" := rfl
example : Multi.stripImage (dataUrl emptyPngFile) = "" := by
  with_unfolding_all rfl
example : Single.stripImage (dataUrl emptyPngFile) = "data:image/png;base64," := by
  with_unfolding_all rfl
example :
    (Multi.handleFiles st0 "k" pngFile (mkMultiGood "10")).2.1 =
      some (.obj [("lineItems", .arr [goodItem]), ("invoiceDate", .str "2024-03-01")]) := by
  with_unfolding_all rfl

/-!
Claim theorems.
-/

/-- C8, counterexample: the startup validation accepts the empty string for
both environment values — `z.string()` checks only that a string is present,
so the claim that validation fails when either value "is the empty string"
is false. -/
theorem clientEnv_accepts_empty_strings :
    clientEnvParse ⟨some "", some ""⟩ = .ok ("", "") := rfl

/-- C8 as amended: the startup validation succeeds exactly when both
environment-sourced values are present (as strings, of any length —
emptiness is not checked), and fails whenever either value is absent. -/
theorem clientEnv_ok_iff_both_present (e : ProcessEnv) :
    (∃ v, clientEnvParse e = .ok v) ↔ e.stripeKey.isSome ∧ e.openaiKey.isSome := by
  obtain ⟨sk, ok⟩ := e
  cases sk <;> cases ok <;> simp [clientEnvParse]

/-- C5: the simplified variant's acquisition gate accepts `text/plain`
(and its UI advertises text support), but its encoding stage throws the
unsupported-type error for exactly that type, so the accepted file fails
with "Unsupported file type" and no request is issued; the multi variant
behaves as the claim states, sending the decoded text with the original
media type and filename. -/
theorem single_variant_text_plain_unsupported :
    validTypes.contains txtFile.type = true ∧
    Single.encode txtFile = .error Single.unsupportedMsg ∧
    (Single.handleFiles sst0 "k" txtFile (mkSingleGood "10")).1.state = .error ∧
    (Single.handleFiles sst0 "k" txtFile (mkSingleGood "10")).1.errorMessage =
      Single.unsupportedMsg ∧
    (Single.handleFiles sst0 "k" txtFile (mkSingleGood "10")).2.2 = none ∧
    Multi.encode txtFile = .ok ("hello world", .file) ∧
    (Multi.handleFiles st0 "k" txtFile (mkMultiGood "10")).2.2 =
      some (.file "hello world" "text/plain" "notes.txt") := by
  refine ⟨rfl, ?_, ?_, ?_, ?_, ?_, ?_⟩ <;> with_unfolding_all rfl

/-- C2: in both variants, a file whose declared media type is not in the
accepted list is rejected with the fixed invalid-format message, and an
accepted-type file whose size exceeds 10 × 1024 × 1024 bytes is rejected
with the fixed oversized message; in all four cases no callback fires and no
content block is built, so the rejection happens before the encoding stage
and before any outbound request. -/
theorem acquisition_gate_rejects (key : String) (f g : SourceFile) (r : JSVal)
    (stm : Multi.State) (sts : Single.State)
    (hf : validTypes.contains f.type = false)
    (hg : validTypes.contains g.type = true)
    (hgs : 10 * 1024 * 1024 < g.size) :
    Multi.handleFiles stm key f r =
      ({ stm with fileName := f.name, errorMessage := Multi.invalidFormatMsg, state := .error }, none, none) ∧
    Single.handleFiles sts key f r =
      ({ sts with errorMessage := Single.invalidFormatMsg, state := .error }, none, none) ∧
    Multi.handleFiles stm key g r =
      ({ stm with fileName := g.name, errorMessage := Multi.oversizedMsg, state := .error }, none, none) ∧
    Single.handleFiles sts key g r =
      ({ sts with errorMessage := Single.oversizedMsg, state := .error }, none, none) := by
  have hf2 : f.type ∉ validTypes := by simpa using hf
  have hg2 : g.type ∈ validTypes := by simpa using hg
  refine ⟨?_, ?_, ?_, ?_⟩ <;>
    simp [Multi.handleFiles, Single.handleFiles, hf2, hg2, hgs]

/-- C2, witness: the gate theorem applied to a zip file and an oversized
PDF. -/
theorem acquisition_gate_rejects_witness :
    Multi.handleFiles st0 "k" zipFile .null =
      ({ st0 with fileName := zipFile.name, errorMessage := Multi.invalidFormatMsg, state := .error }, none, none) ∧
    Single.handleFiles sst0 "k" zipFile .null =
      ({ sst0 with errorMessage := Single.invalidFormatMsg, state := .error }, none, none) ∧
    Multi.handleFiles st0 "k" bigPdfFile .null =
      ({ st0 with fileName := bigPdfFile.name, errorMessage := Multi.oversizedMsg, state := .error }, none, none) ∧
    Single.handleFiles sst0 "k" bigPdfFile .null =
      ({ sst0 with errorMessage := Single.oversizedMsg, state := .error }, none, none) :=
  acquisition_gate_rejects "k" zipFile bigPdfFile .null st0 sst0 rfl rfl (by decide)

/-- C9, counterexample: `setFileName` runs before the acquisition gate, so a
rejected file does change the displayed file name — the claim that every
piece of state other than the error state and message (including the file
name) is left unchanged is false. -/
theorem gate_rejection_changes_fileName :
    (Multi.handleFiles stOld "k" zipFile .null).1.fileName = "archive.zip" ∧
    "archive.zip" ≠ "old.pdf" := ⟨rfl, by decide⟩

/-- C9 as amended: for a file rejected by the acquisition gate, the state
becomes `error`, the error message becomes the corresponding fixed gate
message, and — in the multi variant — the displayed file name is set to the
rejected file's name; all remaining state (drag state, and in the single
variant the stored extracted data) is unchanged, no callback fires and no
content block is built, so no partial processing of the file occurs. -/
theorem gate_rejection_frame (stm : Multi.State) (sts : Single.State)
    (key : String) (f : SourceFile) (r : JSVal)
    (h : validTypes.contains f.type = false ∨ 10 * 1024 * 1024 < f.size) :
    (Multi.handleFiles stm key f r).1.state = .error ∧
    ((Multi.handleFiles stm key f r).1.errorMessage = Multi.invalidFormatMsg ∨
      (Multi.handleFiles stm key f r).1.errorMessage = Multi.oversizedMsg) ∧
    (Multi.handleFiles stm key f r).1.fileName = f.name ∧
    (Multi.handleFiles stm key f r).1.isDragActive = stm.isDragActive ∧
    (Multi.handleFiles stm key f r).1.dragCounter = stm.dragCounter ∧
    (Multi.handleFiles stm key f r).2 = (none, none) ∧
    (Single.handleFiles sts key f r).1.state = .error ∧
    ((Single.handleFiles sts key f r).1.errorMessage = Single.invalidFormatMsg ∨
      (Single.handleFiles sts key f r).1.errorMessage = Single.oversizedMsg) ∧
    (Single.handleFiles sts key f r).1.extractedData = sts.extractedData ∧
    (Single.handleFiles sts key f r).1.isDragActive = sts.isDragActive ∧
    (Single.handleFiles sts key f r).2 = (none, none) := by
  by_cases hc : f.type ∈ validTypes
  · have hs : 10 * 1024 * 1024 < f.size := by
      rcases h with h | h
      · exact absurd hc (by simpa using h)
      · exact h
    simp [Multi.handleFiles, Single.handleFiles, hc, hs]
  · simp [Multi.handleFiles, Single.handleFiles, hc]

/-- C9, witness: the frame theorem applied to the unsupported zip file. -/
theorem gate_rejection_frame_witness :
    (Multi.handleFiles stOld "k" zipFile .null).1.state = .error ∧
    ((Multi.handleFiles stOld "k" zipFile .null).1.errorMessage = Multi.invalidFormatMsg ∨
      (Multi.handleFiles stOld "k" zipFile .null).1.errorMessage = Multi.oversizedMsg) ∧
    (Multi.handleFiles stOld "k" zipFile .null).1.fileName = zipFile.name ∧
    (Multi.handleFiles stOld "k" zipFile .null).1.isDragActive = stOld.isDragActive ∧
    (Multi.handleFiles stOld "k" zipFile .null).1.dragCounter = stOld.dragCounter ∧
    (Multi.handleFiles stOld "k" zipFile .null).2 = (none, none) ∧
    (Single.handleFiles sst0 "k" zipFile .null).1.state = .error ∧
    ((Single.handleFiles sst0 "k" zipFile .null).1.errorMessage = Single.invalidFormatMsg ∨
      (Single.handleFiles sst0 "k" zipFile .null).1.errorMessage = Single.oversizedMsg) ∧
    (Single.handleFiles sst0 "k" zipFile .null).1.extractedData = sst0.extractedData ∧
    (Single.handleFiles sst0 "k" zipFile .null).1.isDragActive = sst0.isDragActive ∧
    (Single.handleFiles sst0 "k" zipFile .null).2 = (none, none) :=
  gate_rejection_frame stOld sst0 "k" zipFile .null (Or.inl rfl)

/-- C10: in both variants the rate check only fires when the rate value
compares strictly below 0 or strictly above 100000000; both comparisons are
false for an absent (`undefined`) or NaN `payRateInSubunits`, so such a line
item or response passes the rate check and is never rejected with the
invalid-rate message. -/
theorem rate_check_passes_nan_and_absent (d q p : JSVal)
    (hp : p = JSVal.undefined ∨ p = .jnum .nan) :
    jsLtV p 0 = false ∧ jsGtV p 100000000 = false ∧
    Multi.rateInvalid p = false ∧
    Single.rateInvalid p = false ∧
    Multi.checkItem (mkItem d q p) ≠ some Multi.rateMsg ∧
    Single.validate (mkSingleWith d q p) ≠ .error Single.rateMsg := by
  have hget : getField (mkItem d q p) "payRateInSubunits" = p := rfl
  have hgets : getField (mkSingleWith d q p) "payRateInSubunits" = p := rfl
  rcases hp with h | h <;> subst h <;> refine ⟨rfl, rfl, rfl, rfl, ?_, ?_⟩ <;>
    simp only [Multi.checkItem, Single.validate, hget, hgets] <;>
    split <;>
    simp_all [Multi.descMsg, Multi.rateMsg, Multi.qtyMsg, Single.rateMsg, Single.qtyMsg,
      Single.dateMsg, Single.shapeMsg, Multi.rateInvalid, Single.rateInvalid, jsLtV, jsGtV,
      toNumber, JSNum.ltB, JSNum.gtB] <;>
    split <;>
    simp_all [mkSingleWith, getField, jsToString,
      show isDateFormat "2024-03-01" = true from rfl]

/-- C10, witness: the rate-check theorem at an item whose rate field holds
`undefined`. -/
theorem rate_check_passes_nan_and_absent_witness :
    jsLtV .undefined 0 = false ∧ jsGtV .undefined 100000000 = false ∧
    Multi.rateInvalid .undefined = false ∧
    Single.rateInvalid .undefined = false ∧
    Multi.checkItem (mkItem (.str "Consulting") (.str "1") .undefined) ≠ some Multi.rateMsg ∧
    Single.validate (mkSingleWith (.str "Consulting") (.str "1") .undefined) ≠
      .error Single.rateMsg :=
  rate_check_passes_nan_and_absent (.str "Consulting") (.str "1") .undefined (Or.inl rfl)

/-- C6, counterexample: for an image file with empty content the encoded
data URL ends at the scheme-prefix separator, the portion after the first
separator is the empty string, and the simplified variant — whose strip uses
`split(",")[1] || fileData`, treating the empty string as falsy — forwards
the entire data URL unchanged instead of the empty string the claim
requires. -/
theorem single_variant_forwards_unstripped_on_empty_payload :
    dataUrl emptyPngFile = "data:image/png;base64," ∧
    ((dataUrl emptyPngFile).splitOn ",")[1]? = some "" ∧
    (Single.handleFiles sst0 "k" emptyPngFile (mkSingleGood "10")).2.2 =
      some (.image "data:image/png;base64,") ∧
    "data:image/png;base64," ≠ "" := by
  refine ⟨rfl, ?_, ?_, ?_⟩
  · with_unfolding_all rfl
  · with_unfolding_all rfl
  · decide

/-- C6 as amended: for an encoded string with a single scheme-prefix
separator, the multi variant forwards exactly the portion after the
separator (forwarding the empty string when that portion is empty), while
the simplified variant forwards that portion only when it is non-empty and
otherwise forwards the whole string unchanged; a string without a separator
is forwarded unchanged by both. -/
theorem image_payload_strip (s a b t : String)
    (h1 : s.splitOn "," = [a, b]) (h2 : s.contains ',' = true)
    (h3 : t.splitOn "," = [t]) (h4 : t.contains ',' = false) :
    Multi.stripImage s = b ∧
    Single.stripImage s = (if b = "" then s else b) ∧
    Multi.stripImage t = t ∧
    Single.stripImage t = t := by
  unfold Multi.stripImage Single.stripImage
  rw [h1, h2, h3, h4]
  simp

/-- C6, witness: the strip theorem at a data URL with one separator and a
separator-free string. -/
theorem image_payload_strip_witness :
    Multi.stripImage "data:image/png;base64,iVBORw==" = "iVBORw==" ∧
    Single.stripImage "data:image/png;base64,iVBORw==" =
      (if "iVBORw==" = "" then "data:image/png;base64,iVBORw==" else "iVBORw==") ∧
    Multi.stripImage "iVBORw==" = "iVBORw==" ∧
    Single.stripImage "iVBORw==" = "iVBORw==" :=
  image_payload_strip "data:image/png;base64,iVBORw==" "data:image/png;base64" "iVBORw=="
    "iVBORw==" (by with_unfolding_all rfl) (by with_unfolding_all rfl)
    (by with_unfolding_all rfl) (by with_unfolding_all rfl)

/-- Every media type accepted by the acquisition gate is handled by the
multi variant's encoder, so encoding succeeds for every gate-accepted
file. -/
theorem encode_ok_of_accepted (f : SourceFile)
    (ht : validTypes.contains f.type = true) :
    ∃ p, Multi.encode f = .ok p := by
  have h1 : ("image/jpeg".startsWith "image/") = true := by with_unfolding_all rfl
  have h2 : ("image/jpg".startsWith "image/") = true := by with_unfolding_all rfl
  have h3 : ("image/png".startsWith "image/") = true := by with_unfolding_all rfl
  have h4 : ("image/webp".startsWith "image/") = true := by with_unfolding_all rfl
  have h5 : ("application/pdf".startsWith "image/") = false := by with_unfolding_all rfl
  have h6 : ("text/plain".startsWith "image/") = false := by with_unfolding_all rfl
  have hmem : f.type ∈ validTypes := by simpa using ht
  obtain ⟨nm, ty, sz, bs, tx⟩ := f
  simp only [validTypes, List.mem_cons, List.not_mem_nil, or_false] at hmem
  rcases hmem with h | h | h | h | h | h <;> subst h
  · exact ⟨(dataUrl ⟨nm, "image/jpeg", sz, bs, tx⟩, .image), by simp [Multi.encode, h1]⟩
  · exact ⟨(dataUrl ⟨nm, "image/jpg", sz, bs, tx⟩, .image), by simp [Multi.encode, h2]⟩
  · exact ⟨(dataUrl ⟨nm, "image/png", sz, bs, tx⟩, .image), by simp [Multi.encode, h3]⟩
  · exact ⟨(dataUrl ⟨nm, "image/webp", sz, bs, tx⟩, .image), by simp [Multi.encode, h4]⟩
  · exact ⟨(base64Encode bs, .file), by simp [Multi.encode, h5]⟩
  · exact ⟨(tx, .file), by simp [Multi.encode, h6]⟩

/-- A value with an `isInvoice` field is an object. -/
theorem obj_of_getField_bool (v : JSVal) (k : String) (b : Bool)
    (h : getField v k = .bool b) : ∃ fs, v = .obj fs := by
  cases v <;> simp [getField] at h <;> exact ⟨_, rfl⟩

/-- C1, counterexample: an extraction response whose `isInvoice` field is
present and false but which also carries a `properties` envelope is rewritten
by normalization (which runs before the sentinel check), so the pipeline
does not yield the not-invoice classification and the extracted data *is*
passed to the completion callback — contradicting "regardless of the values
of all other fields" and "no data is ever passed". -/
theorem envelope_overrides_false_isInvoice :
    getField envelopeFalseResp "isInvoice" = .bool false ∧
    (Multi.handleFiles st0 "k" pngFile envelopeFalseResp).2.1 =
      some (.obj [("lineItems", .arr [goodItem]), ("invoiceDate", .str "2024-03-01")]) ∧
    (Multi.handleFiles st0 "k" pngFile envelopeFalseResp).1.state ≠ .notInvoice := by
  refine ⟨rfl, by with_unfolding_all rfl, ?_⟩
  have hst : (Multi.handleFiles st0 "k" pngFile envelopeFalseResp).1.state = .processing := by
    with_unfolding_all rfl
  rw [hst]
  decide

/-- C1 as amended: in the multi variant, for every gate-accepted file (with
the API key configured) and every response whose *normalized* form carries
`isInvoice = false`, the pipeline reaches the sentinel not-invoice terminal
state — distinct from the generic error state — with its fixed message, all
downstream validation checks are skipped, and nothing is passed to the
`onDataExtracted` callback.  (Responses carrying a rewriting `properties`
envelope have their normalized, not raw, `isInvoice` consulted; the
simplified variant has no `isInvoice` handling at all.) -/
theorem not_invoice_sentinel (stm : Multi.State) (key : String) (f : SourceFile)
    (r : JSVal) (hk : key ≠ "")
    (ht : validTypes.contains f.type = true)
    (hs : ¬ 10 * 1024 * 1024 < f.size)
    (hi : getField (Multi.normalize r) "isInvoice" = .bool false) :
    (Multi.handleFiles stm key f r).1.state = .notInvoice ∧
    (Multi.handleFiles stm key f r).1.errorMessage = Multi.notInvoiceUserMsg ∧
    (Multi.handleFiles stm key f r).2.1 = none := by
  obtain ⟨fs, hfs⟩ := obj_of_getField_bool _ _ _ hi
  have hval : Multi.validate (Multi.normalize r) = .error Multi.notInvoiceSentinel := by
    rw [hfs] at hi ⊢
    simp [Multi.validate, truthy, typeofObject, hi]
  obtain ⟨p, hp⟩ := encode_ok_of_accepted f ht
  have hproc : Multi.processDocument key f r =
      (some (Multi.mkContent p.2 p.1 f), .error Multi.notInvoiceSentinel) := by
    simp [Multi.processDocument, hk, hp, hval]
  have hmem : f.type ∈ validTypes := by simpa using ht
  simp [Multi.handleFiles, hmem, hs, hproc]

/-- C1, witness: the sentinel theorem at a plain response with
`isInvoice = false` and a gate-accepted text file. -/
theorem not_invoice_sentinel_witness :
    (Multi.handleFiles st0 "k" txtFile (.obj [("isInvoice", .bool false)])).1.state =
      .notInvoice ∧
    (Multi.handleFiles st0 "k" txtFile (.obj [("isInvoice", .bool false)])).1.errorMessage =
      Multi.notInvoiceUserMsg ∧
    (Multi.handleFiles st0 "k" txtFile (.obj [("isInvoice", .bool false)])).2.1 = none :=
  not_invoice_sentinel st0 "k" txtFile (.obj [("isInvoice", .bool false)])
    (by decide) rfl (by decide) rfl

/-- C4, counterexample: for a line item that simultaneously violates the
description, rate and quantity checks, the code reports the
invalid-description failure — the per-item checks run in the order
description, rate, quantity, not the rate-first order the claim states, so
the claimed first-failing message (invalid payment amount) is not the one
reported. -/
theorem validation_order_counterexample :
    Multi.validate (mkMultiObj true [allBadItem] "2024-01-05") = .error Multi.descMsg ∧
    Multi.descMsg ≠ Multi.rateMsg := by
  refine ⟨by with_unfolding_all rfl, by decide⟩

/-- C4 as amended: the multi variant applies its per-item checks in the
order description (invalid service description), then rate (invalid payment
amount), then quantity (invalid quantity/hours) — the first failing check in
*this* order determines the single reported message — and the overall
validation reports the first failing item's message. -/
theorem validation_order (i j l : JSVal) (items : List JSVal) (date : String)
    (h1 : Multi.descInvalid i = true)
    (h2 : Multi.descInvalid j = false)
    (h3 : Multi.rateInvalid (getField j "payRateInSubunits") = true)
    (h4 : Multi.descInvalid l = false)
    (h5 : Multi.rateInvalid (getField l "payRateInSubunits") = false)
    (h6 : Multi.qtyInvalid (getField l "quantity") = true) :
    Multi.checkItem i = some Multi.descMsg ∧
    Multi.checkItem j = some Multi.rateMsg ∧
    Multi.checkItem l = some Multi.qtyMsg ∧
    Multi.validate (mkMultiObj true (i :: items) date) = .error Multi.descMsg := by
  have hci : Multi.checkItem i = some Multi.descMsg := by simp [Multi.checkItem, h1]
  refine ⟨hci, by simp [Multi.checkItem, h2, h3], by simp [Multi.checkItem, h4, h5, h6], ?_⟩
  simp [Multi.validate, mkMultiObj, getField, truthy, typeofObject, isArray, arrElems,
    Multi.checkItems, hci]

/-- C4, witness: the order theorem at items violating (description ∧ rate),
(rate ∧ quantity) and (quantity) respectively. -/
theorem validation_order_witness :
    Multi.checkItem allBadItem = some Multi.descMsg ∧
    Multi.checkItem (mkItem (.str "Work") (.str "0") (.jnum (.num (-1)))) =
      some Multi.rateMsg ∧
    Multi.checkItem (mkItem (.str "Work") (.str "0") (.jnum (.num 5000))) =
      some Multi.qtyMsg ∧
    Multi.validate (mkMultiObj true [allBadItem] "2024-01-05") = .error Multi.descMsg :=
  validation_order allBadItem (mkItem (.str "Work") (.str "0") (.jnum (.num (-1))))
    (mkItem (.str "Work") (.str "0") (.jnum (.num 5000))) [] "2024-01-05"
    (by with_unfolding_all rfl) (by with_unfolding_all rfl) (by with_unfolding_all rfl)
    (by with_unfolding_all rfl) (by with_unfolding_all rfl) (by with_unfolding_all rfl)

/-- C3, counterexample: in the simplified variant the quantity check has no
NaN test (`parseFloat(q) <= 0 || parseFloat(q) > 10000`, both false on NaN),
so the unparsable quantity string "abc" passes the whole validation — the
claim that every variant rejects "abc" with the invalid-quantity message is
false. -/
theorem single_variant_accepts_nan_quantity :
    Single.validate (mkSingleGood "abc") = .ok (mkSingleGood "abc") := by
  with_unfolding_all rfl

/-- C3 as amended: for an otherwise-valid response with quantity string `q`,
the multi variant fails with its invalid-quantity message exactly when the
parsed value is NaN, ≤ 0 or > 10000, while the simplified variant fails with
its invalid-quantity message exactly when the parse succeeds with a value
≤ 0 or > 10000 — a NaN parse passes the simplified variant's check. -/
theorem quantity_check_variants (q : String) :
    (Multi.validate (mkMultiGood q) = .error Multi.qtyMsg ↔
      jsParseFloatStr q = .nan ∨ ∃ x, jsParseFloatStr q = .num x ∧ (x ≤ 0 ∨ 10000 < x)) ∧
    (Single.validate (mkSingleGood q) = .error Single.qtyMsg ↔
      ∃ x, jsParseFloatStr q = .num x ∧ (x ≤ 0 ∨ 10000 < x)) := by
  have hd : Multi.descInvalid (mkItem (.str "Consulting") (.str q) (.jnum (.num 5000))) =
      false := rfl
  have hr : Multi.rateInvalid
      (getField (mkItem (.str "Consulting") (.str q) (.jnum (.num 5000)))
        "payRateInSubunits") = false := rfl
  have hgq : getField (mkItem (.str "Consulting") (.str q) (.jnum (.num 5000)))
      "quantity" = .str q := rfl
  have hc : Multi.checkItem (mkItem (.str "Consulting") (.str q) (.jnum (.num 5000))) =
      (if Multi.qtyInvalid (.str q) = true then some Multi.qtyMsg else none) := by
    simp [Multi.checkItem, hd, hr, hgq]
  have e1 : truthy (mkMultiGood q) = true := rfl
  have e2 : typeofObject (mkMultiGood q) = true := rfl
  have e3 : getField (mkMultiGood q) "isInvoice" = .bool true := rfl
  have e4 : getField (mkMultiGood q) "lineItems" =
      .arr [mkItem (.str "Consulting") (.str q) (.jnum (.num 5000))] := rfl
  have e5 : getField (mkMultiGood q) "invoiceDate" = .str "2024-03-01" := rfl
  have hv : Multi.validate (mkMultiGood q) =
      (if Multi.qtyInvalid (.str q) = true then .error Multi.qtyMsg
        else .ok (mkMultiGood q)) := by
    simp only [Multi.validate, e1, e2, e3, e4, e5, Multi.checkItems, hc]
    by_cases hb : Multi.qtyInvalid (.str q) = true <;>
      simp [hb, truthy, isArray, arrElems, jsToString,
        show isDateFormat "2024-03-01" = true from rfl]
  have f1 : truthy (mkSingleGood q) = true := rfl
  have f2 : typeofObject (mkSingleGood q) = true := rfl
  have fr : Single.rateInvalid (getField (mkSingleGood q) "payRateInSubunits") =
      false := rfl
  have fgq : getField (mkSingleGood q) "quantity" = .str q := rfl
  have f5 : getField (mkSingleGood q) "invoiceDate" = .str "2024-03-01" := rfl
  have hv2 : Single.validate (mkSingleGood q) =
      (if Single.qtyInvalid (.str q) = true then .error Single.qtyMsg
        else .ok (mkSingleGood q)) := by
    simp only [Single.validate, f1, f2, fr, fgq, f5]
    by_cases hb : Single.qtyInvalid (.str q) = true <;>
      simp [hb, truthy, typeofObject, jsToString,
        show isDateFormat "2024-03-01" = true from rfl]
  have hpfq : jsParseFloat (.str q) = jsParseFloatStr q := rfl
  rw [hv, hv2]
  cases hpf : jsParseFloatStr q with
  | nan =>
    have hm : Multi.qtyInvalid (.str q) = true := by
      simp [Multi.qtyInvalid, hpfq, hpf]
    have hs : Single.qtyInvalid (.str q) = false := by
      simp [Single.qtyInvalid, hpfq, hpf, JSNum.leB, JSNum.gtB]
    rw [hm, hs]
    refine ⟨⟨fun _ => Or.inl rfl, fun _ => rfl⟩,
      ⟨fun h => absurd h (by simp), fun h => ?_⟩⟩
    rcases h with ⟨y, hy, _⟩
    cases hy
  | num x =>
    have hm : Multi.qtyInvalid (.str q) = (decide (x ≤ 0) || decide (10000 < x)) := by
      simp [Multi.qtyInvalid, hpfq, hpf]
    have hs : Single.qtyInvalid (.str q) = (decide (x ≤ 0) || decide (10000 < x)) := by
      simp [Single.qtyInvalid, hpfq, hpf, JSNum.leB, JSNum.gtB]
    by_cases hx : x ≤ 0 ∨ 10000 < x
    · have hb : (decide (x ≤ 0) || decide (10000 < x)) = true := by
        rcases hx with h | h <;> simp [h]
      rw [hm, hs, hb]
      exact ⟨⟨fun _ => Or.inr ⟨x, rfl, hx⟩, fun _ => rfl⟩,
        ⟨fun _ => ⟨x, rfl, hx⟩, fun _ => rfl⟩⟩
    · have hb : (decide (x ≤ 0) || decide (10000 < x)) = false := by
        push_neg at hx
        simp [not_le.mpr hx.1, not_lt.mpr hx.2]
      rw [hm, hs, hb]
      refine ⟨⟨fun h => absurd h (by simp), fun h => ?_⟩,
        ⟨fun h => absurd h (by simp), fun h => ?_⟩⟩
      · rcases h with h | ⟨y, hy, hcond⟩
        · exact absurd h (by simp)
        · cases hy
          exact absurd hcond hx
      · rcases h with ⟨y, hy, hcond⟩
        cases hy
        exact absurd hcond hx

/-- C7: wrapping a well-typed flat response of either variant in an
extraneous `properties` envelope is undone exactly by normalization — the
coercions are identities on values of the expected primitive types — and the
whole `processDocument` pipeline (request issued, validation result,
forwarded data) gives the same outcome for the wrapped and the unwrapped
response, for every key and file and in both variants. -/
theorem properties_envelope_equivalence (b : Bool) (items : List JSVal) (s : String)
    (key : String) (f g : SourceFile) (stm : Multi.State) (sts : Single.State)
    (d q : String) (hb : Bool) (n : JSNum) (date : String) :
    Multi.normalize (.obj [("properties", mkMultiObj b items s)]) = mkMultiObj b items s ∧
    Multi.processDocument key f (.obj [("properties", mkMultiObj b items s)]) =
      Multi.processDocument key f (mkMultiObj b items s) ∧
    Multi.handleFiles stm key f (.obj [("properties", mkMultiObj b items s)]) =
      Multi.handleFiles stm key f (mkMultiObj b items s) ∧
    Single.normalize (.obj [("properties", mkSingleObj d q hb n date)]) =
      mkSingleObj d q hb n date ∧
    Single.processDocument key g (.obj [("properties", mkSingleObj d q hb n date)]) =
      Single.processDocument key g (mkSingleObj d q hb n date) ∧
    Single.handleFiles sts key g (.obj [("properties", mkSingleObj d q hb n date)]) =
      Single.handleFiles sts key g (mkSingleObj d q hb n date) := by
  have hm1 : Multi.normalize (.obj [("properties", mkMultiObj b items s)]) =
      mkMultiObj b items s := by
    simp [Multi.normalize, mkMultiObj, hasKey, getField, truthy, typeofObject, isArray,
      jsToString]
  have hm2 : Multi.normalize (mkMultiObj b items s) = mkMultiObj b items s := by
    simp [Multi.normalize, mkMultiObj, hasKey]
  have hmp : Multi.processDocument key f (.obj [("properties", mkMultiObj b items s)]) =
      Multi.processDocument key f (mkMultiObj b items s) := by
    simp only [Multi.processDocument, hm1, hm2]
  have hs1 : Single.normalize (.obj [("properties", mkSingleObj d q hb n date)]) =
      mkSingleObj d q hb n date := by
    simp [Single.normalize, mkSingleObj, hasKey, getField, truthy, typeofObject,
      jsToString, toNumber]
  have hs2 : Single.normalize (mkSingleObj d q hb n date) = mkSingleObj d q hb n date := by
    simp [Single.normalize, mkSingleObj, hasKey]
  have hsp : Single.processDocument key g (.obj [("properties", mkSingleObj d q hb n date)]) =
      Single.processDocument key g (mkSingleObj d q hb n date) := by
    simp only [Single.processDocument, hs1, hs2]
  exact ⟨hm1, hmp, by simp only [Multi.handleFiles, hmp], hs1, hsp,
    by simp only [Single.handleFiles, hsp]⟩
